import Mathlib

/-!
Shallow embedding of the USSD BMI-calculator session state machine from
`server.js` (the database-backed variant: `STATES`, `MESSAGES`,
`initializeSession`, `pushToNavigationStack`, `goBackToPreviousState`,
`clearDataForState`, `resetToWelcome`, `calculateBMI`,
`getCategoryTranslation`, `getStateResponse`, the `handle*State` functions,
`processUSSDFlow`, `cleanupMemorySessions` and the request pipeline).

Modelling conventions:
- JavaScript numbers are modelled as `ℚ` (the BMI arithmetic involves only
  rationals at the magnitudes this program handles); `toFixed(1)` is modelled
  as round-half-up to one decimal, the value ECMAScript prescribes for
  non-negative inputs.
- `parseFloat` / `parseInt` return `Option` (`none` models `NaN`): leading
  ECMAScript whitespace is skipped, `parseInt` honours the `0x`/`0X`
  hexadecimal prefix, `parseFloat` honours fraction and exponent notation;
  the non-rational `Infinity` value is modelled as `NaN`, which classifies
  the same at every range check the handlers perform.
- Database calls (`createOrUpdateSession`, `updateSessionStatus`,
  `saveBMIResult`, the query in `getBMIHistory`, `cleanupOldSessions`) can
  reject; an `Env` records, per call index, whether the awaited call
  succeeds, and `getBMIHistory`'s rows.  Helpers that swallow their own
  errors (`cleanupOldSessions`, `getBMIHistory`) never propagate a failure.
- The in-memory `sessions` map is a `Store` association list; in-place
  mutation of the shared session object is modelled by threading the
  partially updated session out of every exit path, including the exceptional
  one.
-/

unseal Rat.ofScientific Rat.mul Rat.add Rat.sub Rat.inv

/-- The `STATES` enumeration of `server.js`. -/
inductive UState where
  | welcome
  | age
  | weight
  | height
  | result
  | tips
  | history
deriving DecidableEq

/-- The two languages offered by the language menu. -/
inductive Lang where
  | english
  | kinyarwanda
deriving DecidableEq

/-- BMI categories as produced by `calculateBMI`. -/
inductive Category where
  | underweight
  | normal
  | overweight
  | obese
deriving DecidableEq

/-- One session object of the in-memory `sessions` map (`initializeSession`).
`bmi` stores the already-rounded value (the source keeps the `toFixed(1)`
string; we keep the rational it denotes and format it on rendering). -/
structure Session where
  sessionId : String
  phoneNumber : String
  state : UState
  language : Lang
  age : Option Int
  weight : Option ℚ
  height : Option ℚ
  bmi : Option ℚ
  category : Option Category
  navigationStack : List UState
  lastActivity : Nat
deriving DecidableEq

/-- `initializeSession` from the source (stack starts empty). -/
def initializeSession (sessionId phoneNumber : String) (now : Nat) : Session :=
  { sessionId := sessionId
    phoneNumber := phoneNumber
    state := UState.welcome
    language := Lang.english
    age := none
    weight := none
    height := none
    bmi := none
    category := none
    navigationStack := []
    lastActivity := now }

/-- Digits of a decimal string, most significant first, folded to a `Nat`. -/
def digitsVal (l : List Char) : Nat :=
  l.foldl (fun a c => a * 10 + (c.toNat - 48)) 0

/-- Split a character list into its leading run of decimal digits and the rest. -/
def takeDigits : List Char → List Char × List Char
  | [] => ([], [])
  | c :: cs =>
    if c.isDigit then
      let p := takeDigits cs
      (c :: p.1, p.2)
    else ([], c :: cs)

/-- The characters ECMAScript's `parseInt`/`parseFloat` skip before the
number: WhiteSpace (TAB, VT, FF, SP, NBSP, ZWNBSP and the Unicode
space-separator category) and LineTerminator (LF, CR, LS, PS). -/
def isJsWhitespace (c : Char) : Bool :=
  c.toNat = 0x09 || c.toNat = 0x0A || c.toNat = 0x0B || c.toNat = 0x0C ||
  c.toNat = 0x0D || c.toNat = 0x20 || c.toNat = 0xA0 || c.toNat = 0x1680 ||
  (0x2000 ≤ c.toNat && c.toNat ≤ 0x200A) ||
  c.toNat = 0x2028 || c.toNat = 0x2029 || c.toNat = 0x202F || c.toNat = 0x205F ||
  c.toNat = 0x3000 || c.toNat = 0xFEFF

/-- Hexadecimal digit test, both cases, as `parseInt`'s radix-16 scan uses. -/
def isHexDigit (c : Char) : Bool :=
  c.isDigit || (0x61 ≤ c.toNat && c.toNat ≤ 0x66) || (0x41 ≤ c.toNat && c.toNat ≤ 0x46)

/-- Split a character list into its leading run of hexadecimal digits and
the rest. -/
def takeHexDigits : List Char → List Char × List Char
  | [] => ([], [])
  | c :: cs =>
    if isHexDigit c then
      let p := takeHexDigits cs
      (c :: p.1, p.2)
    else ([], c :: cs)

/-- Hexadecimal digits, most significant first, folded to a `Nat`. -/
def hexVal (l : List Char) : Nat :=
  l.foldl
    (fun a c =>
      a * 16 +
        (if c.isDigit then c.toNat - 48
         else if 0x61 ≤ c.toNat then c.toNat - 87
         else c.toNat - 55))
    0

/-- JavaScript `parseFloat`: skip leading whitespace, then take the longest
prefix of the shape sign, digits with an optional fractional part, optional
`e`/`E` exponent (sign and at least one digit, else the `e` is not part of
the literal).  `none` models `NaN` (no digits at all).  The `Infinity`
literal has no rational value and is modelled as `NaN`; the two classify
identically at every range check this program performs, since `Infinity`
fails each upper bound just as `NaN` fails the `isNaN` guard. -/
def jsParseFloat (s : String) : Option ℚ :=
  let cs := s.data.dropWhile isJsWhitespace
  let sgn : ℚ × List Char :=
    match cs with
    | '-' :: r => (-1, r)
    | '+' :: r => (1, r)
    | r => (1, r)
  let ip := takeDigits sgn.2
  let fpRest : List Char × List Char :=
    match ip.2 with
    | '.' :: r => takeDigits r
    | r => ([], r)
  if ip.1 = [] ∧ fpRest.1 = [] then none
  else
    let mantissa : ℚ :=
      sgn.1 * ((digitsVal ip.1 : ℚ) + (digitsVal fpRest.1 : ℚ) / (10 : ℚ) ^ fpRest.1.length)
    match fpRest.2 with
    | e :: r =>
      if e = 'e' ∨ e = 'E' then
        let esgn : Int × List Char :=
          match r with
          | '-' :: r2 => (-1, r2)
          | '+' :: r2 => (1, r2)
          | r2 => (1, r2)
        let ed := takeDigits esgn.2
        if ed.1 = [] then some mantissa
        else some (mantissa * (10 : ℚ) ^ (esgn.1 * (digitsVal ed.1 : Int)))
      else some mantissa
    | [] => some mantissa

/-- JavaScript `parseInt` with no radix argument: skip leading whitespace,
optional sign, then a `0x`/`0X` prefix selects a hexadecimal scan (`NaN` if
no hex digit follows the prefix), otherwise the longest run of decimal
digits is taken; everything after the digits — including a decimal point or
exponent — is ignored.  `none` models `NaN` (no digits at all). -/
def jsParseInt (s : String) : Option Int :=
  let cs := s.data.dropWhile isJsWhitespace
  let sgn : Int × List Char :=
    match cs with
    | '-' :: r => (-1, r)
    | '+' :: r => (1, r)
    | r => (1, r)
  match sgn.2 with
  | '0' :: x :: r =>
    if x = 'x' ∨ x = 'X' then
      let hp := takeHexDigits r
      if hp.1 = [] then none else some (sgn.1 * (hexVal hp.1 : Int))
    else
      let ip := takeDigits sgn.2
      if ip.1 = [] then none else some (sgn.1 * (digitsVal ip.1 : Int))
  | _ =>
    let ip := takeDigits sgn.2
    if ip.1 = [] then none else some (sgn.1 * (digitsVal ip.1 : Int))

/-- `Number.prototype.toFixed(1)` on a non-negative rational: round to the
nearest tenth, ties away from zero (ECMAScript picks the larger candidate). -/
def roundTenths (x : ℚ) : ℚ :=
  ((⌊x * 10 + 1 / 2⌋ : ℤ) : ℚ) / 10

/-- Render a rounded-to-tenths rational the way `toFixed(1)` prints it. -/
def formatTenths (q : ℚ) : String :=
  let n := (⌊q * 10⌋ : ℤ)
  (if n < 0 then "-" else "") ++ toString (n.natAbs / 10) ++ "." ++ toString (n.natAbs % 10)

/-- `calculateBMI` from the source: height is in centimeters; the BMI is the
`toFixed(1)`-rounded quotient and the category is chosen by comparing that
rounded value against 18.5 / 25 / 30 exactly as the source's `if` chain does. -/
def calculateBMI (weight height : ℚ) : ℚ × Category :=
  let heightM := height / 100
  let bmi := roundTenths (weight / (heightM * heightM))
  let category :=
    if bmi < 18.5 then Category.underweight
    else if 18.5 ≤ bmi ∧ bmi < 25 then Category.normal
    else if 25 ≤ bmi ∧ bmi < 30 then Category.overweight
    else Category.obese
  (bmi, category)

/-- The category thresholds exactly as the specification's table states them,
as a function of the rounded BMI value; compared against the source's
classification in the theorems below. -/
def specCategory (bmi : ℚ) : Category :=
  if bmi < 18.5 then Category.underweight
  else if bmi < 25 then Category.normal
  else if bmi < 30 then Category.overweight
  else Category.obese

/-- One language's entry of the `MESSAGES` table. -/
structure MsgSet where
  WELCOME : String
  ENTER_AGE : String
  ENTER_WEIGHT : String
  ENTER_HEIGHT : String
  BMI_RESULT : String
  tipsUnderweight : String
  tipsNormal : String
  tipsOverweight : String
  tipsObese : String
  INVALID : String
  INVALID_CHOICE : String
  ERROR : String
  HISTORY : String
  GOODBYE : String
  SESSION_ENDED : String
deriving DecidableEq

/-- `MESSAGES.kinyarwanda` from the source. -/
def kinyarwandaMsgs : MsgSet :=
  { WELCOME := "CON Murakaza neza kuri BMI Calculator\nHitamo ururimi\n1. Kinyarwanda\n2. English"
    ENTER_AGE := "CON Injiza imyaka yawe (urugero, 25) :\n0. Subira ku menu\n00. Sohoka\n\nHitamo nimero :"
    ENTER_WEIGHT := "CON Injiza ibiro byawe muri kilogarama (urugero, 70) :\n0. Subira inyuma\n00. Sohoka\n\nHitamo nimero :"
    ENTER_HEIGHT := "CON Injiza uburebure bwawe muri santimetero (urugero, 170) :\n0. Subira inyuma\n00. Sohoka\n\nHitamo nimero :"
    BMI_RESULT := "CON BMI yawe ni %s\nIcyiciro : %s\n1. Inama z\x27ubuzima\n2. Reba amateka\n0. Kubara ubundi\n00. Sohoka\n\nHitamo nimero :"
    tipsUnderweight := "CON Inama : Fata ibiryo biryoshye, ongeramo kalori, wasanga umuganga w\x27imirire.\n0. Subira inyuma\n00. Sohoka\n\nHitamo nimero :"
    tipsNormal := "CON Inama : Komeza kurya ibiryo biringanije, korikora imyirambere, unywe amazi ahagije.\n0. Subira inyuma\n00. Sohoka\n\nHitamo nimero :"
    tipsOverweight := "CON Inama : Gukuramo kalori, ongeramo imyirambere, wasanga umuganga.\n0. Subira inyuma\n00. Sohoka\n\nHitamo nimero :"
    tipsObese := "CON Inama : Sura umuganga, tangira kurya ibiryo by\x27ubuzima, korikora imyirambere ufashijwe.\n0. Subira inyuma\n00. Sohoka\n\nHitamo nimero :"
    INVALID := "END Injiza nabi. Ongera ugerageze."
    INVALID_CHOICE := "END Guhitamo nabi. Ongera ugerageze."
    ERROR := "END Sisitemu iri mu bikorwa byo kuyisana. Ongera ugerageze nyuma."
    HISTORY := "CON Amateka ya BMI yawe y\x27ibyashize 3 :\n%s\n0. Subira inyuma\n00. Sohoka\n\nHitamo nimero :"
    GOODBYE := "END Murakoze gukoresha BMI Calculator. Turabonana!"
    SESSION_ENDED := "END Igihe kirangiye. Murakoze!" }

/-- `MESSAGES.english` from the source. -/
def englishMsgs : MsgSet :=
  { WELCOME := "CON Welcome to the BMI Calculator\nPlease select a language:\n1. Kinyarwanda\n2. English"
    ENTER_AGE := "CON Enter your age (e.g., 25):\n0. Back to main menu\n00. Exit\n\nChoose a number:"
    ENTER_WEIGHT := "CON Enter your weight in kilograms (e.g., 70):\n0. Back\n00. Exit\n\nChoose a number:"
    ENTER_HEIGHT := "CON Enter your height in centimeters (e.g., 170):\n0. Back\n00. Exit\n\nChoose a number:"
    BMI_RESULT := "CON Your BMI is %s\nCategory: %s\n1. Health tips\n2. View history\n0. New calculation\n00. Exit\n\nChoose a number:"
    tipsUnderweight := "CON Tips: Eat nutrient-rich foods, increase calorie intake, consult a dietitian.\n0. Back\n00. Exit\n\nChoose a number:"
    tipsNormal := "CON Tips: Maintain a balanced diet, exercise regularly, stay hydrated.\n0. Back\n00. Exit\n\nChoose a number:"
    tipsOverweight := "CON Tips: Reduce calorie intake, increase physical activity, consult a doctor.\n0. Back\n00. Exit\n\nChoose a number:"
    tipsObese := "CON Tips: Consult a doctor, adopt a healthy diet, exercise under supervision.\n0. Back\n00. Exit\n\nChoose a number:"
    INVALID := "END Invalid input. Please try again."
    INVALID_CHOICE := "END Invalid choice. Please try again."
    ERROR := "END The system is under maintenance. Please try again later."
    HISTORY := "CON History of your last 3 BMI calculations:\n%s\n0. Back\n00. Exit\n\nChoose a number:"
    GOODBYE := "END Thank you for using the BMI Calculator. Goodbye!"
    SESSION_ENDED := "END Session ended. Thank you!" }

/-- `MESSAGES[lang]`. -/
def msgs : Lang → MsgSet
  | Lang.english => englishMsgs
  | Lang.kinyarwanda => kinyarwandaMsgs

/-- `MESSAGES[lang].HEALTH_TIPS[category]`. -/
def healthTips (m : MsgSet) : Category → String
  | Category.underweight => m.tipsUnderweight
  | Category.normal => m.tipsNormal
  | Category.overweight => m.tipsOverweight
  | Category.obese => m.tipsObese

/-- `HEALTH_TIPS[session.category]` when the field may be null: a null
category indexes the table at `undefined`, the handler returns that
undefined value, and `res.end(undefined)` sends an empty body — modelled as
the empty string. -/
def healthTipsOpt (m : MsgSet) : Option Category → String
  | some c => healthTips m c
  | none => ""

/-- `getCategoryTranslation` from the source. -/
def getCategoryTranslation (category : Category) (language : Lang) : String :=
  match language, category with
  | Lang.kinyarwanda, Category.underweight => "Ibiro bike"
  | Lang.kinyarwanda, Category.normal => "Bisanzwe"
  | Lang.kinyarwanda, Category.overweight => "Ibiro byinshi"
  | Lang.kinyarwanda, Category.obese => "Umunani"
  | Lang.english, Category.underweight => "Underweight"
  | Lang.english, Category.normal => "Normal"
  | Lang.english, Category.overweight => "Overweight"
  | Lang.english, Category.obese => "Obese"

/-- Worker for `splitTokens`, accumulating the current segment reversed. -/
def splitTokensAux : List Char → List Char → List String
  | [], acc => [String.mk acc.reverse]
  | c :: cs, acc =>
    if c = '*' then String.mk acc.reverse :: splitTokensAux cs []
    else splitTokensAux cs (c :: acc)

/-- JavaScript `text.split('*')`: splitting the empty string yields `[""]`,
and empty segments between separators are kept. -/
def splitTokens (s : String) : List String :=
  splitTokensAux s.data []

/-- Worker for `jsReplaceFirst` over character lists. -/
def replaceFirstAux (pat repl : List Char) : List Char → List Char
  | [] => []
  | c :: cs =>
    if pat.isPrefixOf (c :: cs) then repl ++ (c :: cs).drop pat.length
    else c :: replaceFirstAux pat repl cs

/-- JavaScript `String.prototype.replace` with a string pattern: only the
first occurrence is replaced. -/
def jsReplaceFirst (s pat repl : String) : String :=
  String.mk (replaceFirstAux pat.data repl.data s.data)

/-- `pushToNavigationStack`: push the about-to-be-left state (states are a
non-empty enum, so the source's truthiness guard on `session.state` always
passes), unless it equals the target, then move to the target state. -/
def pushToNavigationStack (s : Session) (state : UState) : Session :=
  let s :=
    if s.state ≠ state then
      { s with navigationStack := s.navigationStack ++ [s.state] }
    else s
  { s with state := state }

/-- `clearDataForState`: null out the fields collected at the given state or
later; backing to `welcome` also resets the language to the default. -/
def clearDataForState (s : Session) (state : UState) : Session :=
  match state with
  | UState.welcome =>
    { s with language := Lang.english, age := none, weight := none, height := none,
             bmi := none, category := none }
  | UState.age =>
    { s with age := none, weight := none, height := none, bmi := none, category := none }
  | UState.weight =>
    { s with weight := none, height := none, bmi := none, category := none }
  | UState.height =>
    { s with height := none, bmi := none, category := none }
  | UState.result => s
  | UState.tips => s
  | UState.history => s

/-- `resetToWelcome` from the source. -/
def resetToWelcome (s : Session) : Session :=
  { s with state := UState.welcome, navigationStack := [], language := Lang.english,
           age := none, weight := none, height := none, bmi := none, category := none }

/-- `goBackToPreviousState`: pop the stack (JavaScript pushes and pops at the
array's end) and clear the data of the state returned to; with an empty
stack, reset to welcome.  The boolean mirrors the source's return value. -/
def goBackToPreviousState (s : Session) : Session × Bool :=
  match s.navigationStack.getLast? with
  | some previousState =>
    let s := { s with state := previousState, navigationStack := s.navigationStack.dropLast }
    (clearDataForState s previousState, true)
  | none => (resetToWelcome s, false)

/-- `getStateResponse`: render the prompt for the session's current state.
The source mutates the session (`resetToWelcome`) on the fall-through
branches (`result`/`tips` with missing data, `history`), so the function
returns the possibly-updated session alongside the text. -/
def getStateResponse (s : Session) : Session × String :=
  match s.state with
  | UState.welcome => (s, englishMsgs.WELCOME)
  | UState.age => (s, (msgs s.language).ENTER_AGE)
  | UState.weight => (s, (msgs s.language).ENTER_WEIGHT)
  | UState.height => (s, (msgs s.language).ENTER_HEIGHT)
  | UState.result =>
    match s.bmi, s.category with
    | some b, some c =>
      (s, jsReplaceFirst (jsReplaceFirst (msgs s.language).BMI_RESULT "%s" (formatTenths b))
            "%s" (getCategoryTranslation c s.language))
    | _, _ => (resetToWelcome s, englishMsgs.WELCOME)
  | UState.tips =>
    match s.category with
    | some c => (s, healthTips (msgs s.language) c)
    | none => (resetToWelcome s, englishMsgs.WELCOME)
  | UState.history => (resetToWelcome s, englishMsgs.WELCOME)

/-- One row of `bmi_results` as `getBMIHistory` returns it (the creation
date reaches the prompt only through `toLocaleDateString`, kept opaque). -/
structure HistRecord where
  bmi : ℚ
  category : Category
  dateStr : String
deriving DecidableEq

/-- Outcome environment for the awaited database calls: `dbOk k` tells
whether the k-th awaited pool call of the request resolves or rejects, and
`history` is the rows `getBMIHistory`'s query would produce. -/
structure Env where
  dbOk : Nat → Bool
  history : List HistRecord

/-- Every awaited database call resolves. -/
def allOk (env : Env) : Prop := ∀ k, env.dbOk k = true

/-- An environment in which every database call succeeds (empty history). -/
def envAllOk : Env := { dbOk := fun _ => true, history := [] }

/-- An environment in which every database call rejects. -/
def envAllFail : Env := { dbOk := fun _ => false, history := [] }

/-- One awaited call against the pool: `some` advances the call counter,
`none` models the promise rejecting (the callee rethrows). -/
def dbCall (env : Env) (c : Nat) : Option Nat :=
  if env.dbOk c then some (c + 1) else none

/-- Result of one handler: continue with a response, terminate the session
(deleted from the map) with a response, or raise carrying the session as
mutated so far (in-place mutations stay visible to the catch block). -/
inductive HStep where
  | cont (s : Session) (resp : String)
  | stop (resp : String)
  | raise (s : Session)
deriving DecidableEq

/-- `handleWelcomeState`: "0" re-shows the welcome screen, "1"/"2" select
the language and advance to age entry, anything else is the terminal
invalid-input response. -/
def handleWelcomeState (env : Env) (c : Nat) (s : Session) (input : String) : Nat × HStep :=
  if input = "0" then
    match dbCall env c with
    | some c' => (c', HStep.cont s englishMsgs.WELCOME)
    | none => (c, HStep.raise s)
  else if input = "1" then
    let s' := pushToNavigationStack { s with language := Lang.kinyarwanda } UState.age
    match dbCall env c with
    | some c' => (c', HStep.cont s' kinyarwandaMsgs.ENTER_AGE)
    | none => (c, HStep.raise s')
  else if input = "2" then
    let s' := pushToNavigationStack { s with language := Lang.english } UState.age
    match dbCall env c with
    | some c' => (c', HStep.cont s' englishMsgs.ENTER_AGE)
    | none => (c, HStep.raise s')
  else
    match dbCall env c with
    | some c' => (c', HStep.stop englishMsgs.INVALID)
    | none => (c, HStep.raise s)

/-- The age-entry range check of `handleAgeState`. -/
def validAgeInput (input : String) : Bool :=
  match jsParseInt input with
  | some a => decide (0 < a) && decide (a ≤ 120)
  | none => false

/-- The weight-entry range check of `handleWeightState`. -/
def validWeightInput (input : String) : Bool :=
  match jsParseFloat input with
  | some w => decide (0 < w) && decide (w ≤ 1000)
  | none => false

/-- The height-entry range check of `handleHeightState`. -/
def validHeightInput (input : String) : Bool :=
  match jsParseFloat input with
  | some h => decide (0 < h) && decide (h ≤ 300)
  | none => false

/-- `handleAgeState`: "0" pops back, a number in [1,120] records the age and
advances to weight entry, anything else is the terminal invalid response. -/
def handleAgeState (env : Env) (c : Nat) (s : Session) (input : String) : Nat × HStep :=
  if input = "0" then
    let s' := (goBackToPreviousState s).1
    match dbCall env c with
    | some c' =>
      let p := getStateResponse s'
      (c', HStep.cont p.1 p.2)
    | none => (c, HStep.raise s')
  else
    match jsParseInt input with
    | some a =>
      if 0 < a ∧ a ≤ 120 then
        let s' := pushToNavigationStack { s with age := some a } UState.weight
        match dbCall env c with
        | some c' => (c', HStep.cont s' (msgs s.language).ENTER_WEIGHT)
        | none => (c, HStep.raise s')
      else
        match dbCall env c with
        | some c' => (c', HStep.stop (msgs s.language).INVALID)
        | none => (c, HStep.raise s)
    | none =>
      match dbCall env c with
      | some c' => (c', HStep.stop (msgs s.language).INVALID)
      | none => (c, HStep.raise s)

/-- `handleWeightState`: "0" pops back, a number in (0,1000] records the
weight and advances to height entry, anything else is terminal invalid. -/
def handleWeightState (env : Env) (c : Nat) (s : Session) (input : String) : Nat × HStep :=
  if input = "0" then
    let s' := (goBackToPreviousState s).1
    match dbCall env c with
    | some c' =>
      let p := getStateResponse s'
      (c', HStep.cont p.1 p.2)
    | none => (c, HStep.raise s')
  else
    match jsParseFloat input with
    | some w =>
      if 0 < w ∧ w ≤ 1000 then
        let s' := pushToNavigationStack { s with weight := some w } UState.height
        match dbCall env c with
        | some c' => (c', HStep.cont s' (msgs s.language).ENTER_HEIGHT)
        | none => (c, HStep.raise s')
      else
        match dbCall env c with
        | some c' => (c', HStep.stop (msgs s.language).INVALID)
        | none => (c, HStep.raise s)
    | none =>
      match dbCall env c with
      | some c' => (c', HStep.stop (msgs s.language).INVALID)
      | none => (c, HStep.raise s)

/-- `handleHeightState`: "0" pops back; a number in (0,300] records the
height, computes and stores the BMI (a null weight coerces to 0 in the
JavaScript arithmetic), saves the result, advances to the result screen and
renders it; anything else is terminal invalid. -/
def handleHeightState (env : Env) (c : Nat) (s : Session) (input : String) : Nat × HStep :=
  if input = "0" then
    let s' := (goBackToPreviousState s).1
    match dbCall env c with
    | some c' =>
      let p := getStateResponse s'
      (c', HStep.cont p.1 p.2)
    | none => (c, HStep.raise s')
  else
    match jsParseFloat input with
    | some h =>
      if 0 < h ∧ h ≤ 300 then
        let s1 := { s with height := some h }
        let r := calculateBMI (s1.weight.getD 0) (s1.height.getD 0)
        let s2 := { s1 with bmi := some r.1, category := some r.2 }
        match dbCall env c with
        | none => (c, HStep.raise s2)
        | some c1 =>
          let s3 := pushToNavigationStack s2 UState.result
          match dbCall env c1 with
          | none => (c1, HStep.raise s3)
          | some c2 =>
            (c2, HStep.cont s3
              (jsReplaceFirst
                (jsReplaceFirst (msgs s.language).BMI_RESULT "%s" (formatTenths r.1))
                "%s" (getCategoryTranslation r.2 s.language)))
      else
        match dbCall env c with
        | some c' => (c', HStep.stop (msgs s.language).INVALID)
        | none => (c, HStep.raise s)
    | none =>
      match dbCall env c with
      | some c' => (c', HStep.stop (msgs s.language).INVALID)
      | none => (c, HStep.raise s)

/-- The history lines built by `handleResultState` when the caller picks
"2": one `index. date: BMI value (category)` line per record. -/
def historyLines (recs : List HistRecord) (language : Lang) : String :=
  String.join (recs.enum.map (fun p =>
    toString (p.1 + 1) ++ ". " ++ p.2.dateStr ++ ": BMI " ++ formatTenths p.2.bmi
      ++ " (" ++ getCategoryTranslation p.2.category language ++ ")\n"))

/-- `handleResultState`: "0" clears every collected field and starts a new
calculation at age entry (a forward push, not a pop), "1" shows the tips,
"2" shows the history, anything else is terminal invalid-choice. -/
def handleResultState (env : Env) (c : Nat) (s : Session) (input : String) : Nat × HStep :=
  if input = "0" then
    let s' := pushToNavigationStack
      { s with age := none, weight := none, height := none, bmi := none, category := none }
      UState.age
    match dbCall env c with
    | some c' => (c', HStep.cont s' (msgs s.language).ENTER_AGE)
    | none => (c, HStep.raise s')
  else if input = "1" then
    let s' := pushToNavigationStack s UState.tips
    match dbCall env c with
    | some c' => (c', HStep.cont s' (healthTipsOpt (msgs s.language) s.category))
    | none => (c, HStep.raise s')
  else if input = "2" then
    let s' := pushToNavigationStack s UState.history
    match dbCall env c with
    | none => (c, HStep.raise s')
    | some c1 =>
      let recs := if env.dbOk c1 then env.history else []
      let historyText :=
        if recs.isEmpty then
          if s.language = Lang.kinyarwanda then "Nta mateka yaboneka." else "No history found."
        else historyLines recs s.language
      (c1 + 1, HStep.cont s' (jsReplaceFirst (msgs s.language).HISTORY "%s" historyText))
  else
    match dbCall env c with
    | some c' => (c', HStep.stop (msgs s.language).INVALID_CHOICE)
    | none => (c, HStep.raise s)

/-- `handleTipsState`: "0" pops back, anything else is terminal
invalid-choice. -/
def handleTipsState (env : Env) (c : Nat) (s : Session) (input : String) : Nat × HStep :=
  if input = "0" then
    let s' := (goBackToPreviousState s).1
    match dbCall env c with
    | some c' =>
      let p := getStateResponse s'
      (c', HStep.cont p.1 p.2)
    | none => (c, HStep.raise s')
  else
    match dbCall env c with
    | some c' => (c', HStep.stop (msgs s.language).INVALID_CHOICE)
    | none => (c, HStep.raise s)

/-- `handleHistoryState`: "0" pops back, anything else is terminal
invalid-choice. -/
def handleHistoryState (env : Env) (c : Nat) (s : Session) (input : String) : Nat × HStep :=
  if input = "0" then
    let s' := (goBackToPreviousState s).1
    match dbCall env c with
    | some c' =>
      let p := getStateResponse s'
      (c', HStep.cont p.1 p.2)
    | none => (c, HStep.raise s')
  else
    match dbCall env c with
    | some c' => (c', HStep.stop (msgs s.language).INVALID_CHOICE)
    | none => (c, HStep.raise s)

/-- The last `*`-separated token of the request text, the only part the
handlers look at (`inputParts[inputParts.length - 1]`). -/
def lastToken (text : String) : String :=
  (splitTokens text).getLastD ""

/-- The body of `processUSSDFlow`'s `try` block after the session lookup:
`cleanupOldSessions` (own catch, consumes call index 0), the empty-text
reset, the "00" exit shortcut, then the per-state handler dispatch. -/
def processInner (env : Env) (s : Session) (text : String) : Nat × HStep :=
  let c := 1
  if text = "" then
    let s' := resetToWelcome s
    match dbCall env c with
    | some c' => (c', HStep.cont s' englishMsgs.WELCOME)
    | none => (c, HStep.raise s')
  else
    let lastInput := lastToken text
    if lastInput = "00" then
      match dbCall env c with
      | some c' => (c', HStep.stop (msgs s.language).GOODBYE)
      | none => (c, HStep.raise s)
    else
      match s.state with
      | UState.welcome => handleWelcomeState env c s lastInput
      | UState.age => handleAgeState env c s lastInput
      | UState.weight => handleWeightState env c s lastInput
      | UState.height => handleHeightState env c s lastInput
      | UState.result => handleResultState env c s lastInput
      | UState.tips => handleTipsState env c s lastInput
      | UState.history => handleHistoryState env c s lastInput

/-- `processUSSDFlow` with its catch block: a raised error is caught, the
terminate-status write is attempted, and on its success the session is
deleted; if that write itself rejects, the delete is skipped and the outer
request handler still answers with the (English) maintenance message.
`none` in the first component means the session was deleted from the map. -/
def processUSSDFlow (env : Env) (s : Session) (text : String) : Option Session × String :=
  match processInner env s text with
  | (_, HStep.cont s' resp) => (some s', resp)
  | (_, HStep.stop resp) => (none, resp)
  | (c, HStep.raise s') =>
    match dbCall env c with
    | some _ => (none, englishMsgs.ERROR)
    | none => (some s', englishMsgs.ERROR)

/-- The in-memory `sessions` map. -/
abbrev Store := List (String × Session)

/-- `sessions[sessionId]`. -/
def storeLookup (store : Store) (sid : String) : Option Session :=
  (List.find? (fun p => p.1 = sid) store).map (fun p => p.2)

/-- Write `sessions[sessionId] = s` (replace or append). -/
def storeInsert (store : Store) (sid : String) (s : Session) : Store :=
  if (List.find? (fun p => p.1 = sid) store).isSome then
    List.map (fun p => if p.1 = sid then (sid, s) else p) store
  else store ++ [(sid, s)]

/-- `delete sessions[sessionId]`. -/
def storeRemove (store : Store) (sid : String) : Store :=
  List.filter (fun p => !(p.1 = sid : Bool)) store

/-- `cleanupMemorySessions`: drop every session idle for strictly more than
thirty minutes. -/
def cleanupStore (now : Nat) (store : Store) : Store :=
  List.filter (fun p => decide (now - p.2.lastActivity ≤ 30 * 60 * 1000)) store

/-- The session a request runs against: the stored one if present, else a
freshly initialized one (`if (!sessions[sessionId]) ... initializeSession`). -/
def requestSession (store : Store) (sid phone : String) (now : Nat) : Session :=
  match storeLookup store sid with
  | some s => s
  | none => initializeSession sid phone now

/-- One whole POST request against the session map, in the source's order:
look up or create the session, refresh its `lastActivity`, run the
in-memory cleanup (the refreshed session always survives it), then run
`processUSSDFlow` and store or delete the session accordingly. -/
def handleRequest (env : Env) (now : Nat) (store : Store) (sid phone text : String) :
    Store × String :=
  let s0 := requestSession store sid phone now
  let s1 := { s0 with lastActivity := now }
  let store1 := cleanupStore now (storeInsert store sid s1)
  match processUSSDFlow env s1 text with
  | (some s', resp) => (storeInsert store1 sid s', resp)
  | (none, resp) => (storeRemove store1 sid, resp)

/-- All five collected fields (age, weight, height, bmi, category) are null. -/
def allFieldsClearedB (s : Session) : Bool :=
  s.age.isNone && s.weight.isNone && s.height.isNone && s.bmi.isNone && s.category.isNone

/-- The data invariant of failure-free executions: at an entry state no
field at or downstream of it is populated yet (each such field is written
exactly when its state is left forward). -/
def invB (s : Session) : Bool :=
  match s.state with
  | UState.welcome => allFieldsClearedB s
  | UState.age => allFieldsClearedB s
  | UState.weight => s.weight.isNone && s.height.isNone && s.bmi.isNone && s.category.isNone
  | UState.height => s.height.isNone && s.bmi.isNone && s.category.isNone
  | UState.result => true
  | UState.tips => true
  | UState.history => true

/-- The states whose prompt `getStateResponse` can actually render without
falling through to the welcome reset. -/
def renderableB (s : Session) : Bool :=
  match s.state with
  | UState.welcome => true
  | UState.age => true
  | UState.weight => true
  | UState.height => true
  | UState.result => s.bmi.isSome && s.category.isSome
  | UState.tips => s.category.isSome
  | UState.history => false

/-- Per the specification's clearing rule: every collected field whose
validity depended on having passed through the abandoned state is null. -/
def clearedDownstream (abandoned : UState) (s : Session) : Bool :=
  match abandoned with
  | UState.age => allFieldsClearedB s
  | UState.weight => s.weight.isNone && s.height.isNone && s.bmi.isNone && s.category.isNone
  | UState.height => s.height.isNone && s.bmi.isNone && s.category.isNone
  | _ => true

/-- A session sitting at weight entry (age already collected), as produced
by selecting English and entering age 25. -/
def sessionAtWeight : Session :=
  { sessionId := "s-c2", phoneNumber := "p1", state := UState.weight,
    language := Lang.english, age := some 25, weight := none, height := none,
    bmi := none, category := none, navigationStack := [UState.welcome, UState.age],
    lastActivity := 0 }

/-- A Kinyarwanda-language session sitting at age entry. -/
def sessionKinAge : Session :=
  { sessionId := "s-c3", phoneNumber := "p2", state := UState.age,
    language := Lang.kinyarwanda, age := none, weight := none, height := none,
    bmi := none, category := none, navigationStack := [UState.welcome],
    lastActivity := 0 }

/-- A Kinyarwanda-language session sitting at weight entry. -/
def sessionKinWeight : Session :=
  { sessionId := "s-c3b", phoneNumber := "p2", state := UState.weight,
    language := Lang.kinyarwanda, age := some 30, weight := none, height := none,
    bmi := none, category := none, navigationStack := [UState.welcome, UState.age],
    lastActivity := 0 }

/-- A completed Kinyarwanda session at the result screen. -/
def sessionKinResult : Session :=
  { sessionId := "s-c3c", phoneNumber := "p2", state := UState.result,
    language := Lang.kinyarwanda, age := some 30, weight := some 70, height := some 170,
    bmi := some (242 / 10), category := some Category.normal,
    navigationStack := [UState.welcome, UState.age, UState.weight, UState.height],
    lastActivity := 0 }

/-- The session reached by completing a calculation and choosing "0" (new
calculation) at the result screen: back at age entry with `result` on top of
the navigation stack and every collected field already nulled. -/
def sessionResultOnStack : Session :=
  { sessionId := "s-c4", phoneNumber := "p3", state := UState.age,
    language := Lang.english, age := none, weight := none, height := none,
    bmi := none, category := none,
    navigationStack := [UState.welcome, UState.age, UState.weight, UState.height, UState.result],
    lastActivity := 0 }

/-- A session at weight entry with a welcome/age history, used to drive a
concrete back navigation. -/
def sessionWeightBack : Session :=
  { sessionId := "s-c4w", phoneNumber := "p3", state := UState.weight,
    language := Lang.english, age := some 40, weight := none, height := none,
    bmi := none, category := none, navigationStack := [UState.welcome, UState.age],
    lastActivity := 0 }

/-- A stale stored session: weight entry, last touched at time 0. -/
def staleSession : Session :=
  { sessionId := "s-c6", phoneNumber := "p4", state := UState.weight,
    language := Lang.english, age := some 25, weight := none, height := none,
    bmi := none, category := none, navigationStack := [UState.welcome, UState.age],
    lastActivity := 0 }

/-- A session map holding only the stale session. -/
def staleStore : Store := [("s-c6", staleSession)]

/-- A session at the result screen whose bmi/category were cleared (reached
by "0" at the result screen followed by "0" at age entry). -/
def sessionResultNull : Session :=
  { sessionId := "s-c7", phoneNumber := "p5", state := UState.result,
    language := Lang.english, age := none, weight := none, height := none,
    bmi := none, category := none,
    navigationStack := [UState.welcome, UState.age, UState.weight, UState.height],
    lastActivity := 0 }

/-- A completed session at the result screen with its computed data. -/
def sessionResultFull : Session :=
  { sessionId := "s-c7b", phoneNumber := "p5", state := UState.result,
    language := Lang.english, age := some 25, weight := some 70, height := some 170,
    bmi := some (242 / 10), category := some Category.normal,
    navigationStack := [UState.welcome, UState.age, UState.weight, UState.height],
    lastActivity := 0 }

/-- A Kinyarwanda session at age entry used to drive the failure path. -/
def sessionKinAgeDb : Session :=
  { sessionId := "s-c8", phoneNumber := "p6", state := UState.age,
    language := Lang.kinyarwanda, age := none, weight := none, height := none,
    bmi := none, category := none, navigationStack := [UState.welcome],
    lastActivity := 0 }

/-- The session a handler outcome leaves in the map: the continued session,
the raised (partially mutated) one, or nothing for a terminated session. -/
def stepSession : HStep → Option Session
  | HStep.cont s _ => some s
  | HStep.stop _ => none
  | HStep.raise s => some s

/-- The session as mutated by a valid height entry: height recorded, BMI and
category computed and stored (the same value chain `handleHeightState`
builds before saving). -/
def heightComputed (s : Session) (hq : ℚ) : Session :=
  let s1 := { s with height := some hq }
  let r := calculateBMI (s1.weight.getD 0) (s1.height.getD 0)
  { s1 with bmi := some r.1, category := some r.2 }

/-- The numeric-entry validity check the dispatcher applies at each of the
three data-entry states (the handlers' parse-and-range conditions). -/
def numericInputValid : UState → String → Bool
  | UState.age, input => validAgeInput input
  | UState.weight, input => validWeightInput input
  | UState.height, input => validHeightInput input
  | _, _ => false

theorem clearData_state (s : Session) (p : UState) :
    (clearDataForState s p).state = s.state := by
  cases p <;> rfl

theorem clearData_language (s : Session) (p : UState) (h : p ≠ UState.welcome) :
    (clearDataForState s p).language = s.language := by
  cases p <;> first | rfl | exact absurd rfl h

theorem push_language (s : Session) (st : UState) :
    (pushToNavigationStack s st).language = s.language := by
  unfold pushToNavigationStack
  split <;> rfl

theorem resetToWelcome_state (s : Session) : (resetToWelcome s).state = UState.welcome := rfl

theorem goBack_cases (s : Session) :
    (s.navigationStack.getLast? = none ∧ (goBackToPreviousState s).1 = resetToWelcome s) ∨
    ∃ p, s.navigationStack.getLast? = some p ∧
      (goBackToPreviousState s).1 =
        clearDataForState
          { s with state := p, navigationStack := s.navigationStack.dropLast } p := by
  unfold goBackToPreviousState
  cases h : s.navigationStack.getLast? with
  | none => exact Or.inl ⟨rfl, rfl⟩
  | some p => exact Or.inr ⟨p, rfl, rfl⟩

theorem render_id_or_reset (s : Session) :
    (getStateResponse s).1 = s ∨ (getStateResponse s).1 = resetToWelcome s := by
  obtain ⟨sid, ph, st, lang, age, w, h, b, cat, stack, la⟩ := s
  cases st <;> first
    | exact Or.inl rfl
    | exact Or.inr rfl
    | (cases b <;> cases cat <;> first | exact Or.inl rfl | exact Or.inr rfl)

theorem goBack_language (s : Session)
    (h : (goBackToPreviousState s).1.state ≠ UState.welcome) :
    (goBackToPreviousState s).1.language = s.language := by
  rcases goBack_cases s with ⟨_, hr⟩ | ⟨p, _, hr⟩
  · rw [hr] at h
    exact absurd rfl h
  · rw [hr] at h ⊢
    have hp : p ≠ UState.welcome := by
      intro he
      apply h
      rw [clearData_state]
      exact he
    rw [clearData_language _ _ hp]

theorem render_language (s : Session)
    (h : (getStateResponse s).1.state ≠ UState.welcome) :
    (getStateResponse s).1.language = s.language := by
  rcases render_id_or_reset s with hr | hr
  · rw [hr]
  · rw [hr] at h
    exact absurd rfl h

theorem back_render_language (s : Session)
    (h : (getStateResponse (goBackToPreviousState s).1).1.state ≠ UState.welcome) :
    (getStateResponse (goBackToPreviousState s).1).1.language = s.language := by
  have h2 : (goBackToPreviousState s).1.state ≠ UState.welcome := by
    intro he
    rcases render_id_or_reset (goBackToPreviousState s).1 with hr | hr
    · rw [hr] at h
      exact h he
    · rw [hr] at h
      exact h rfl
  calc (getStateResponse (goBackToPreviousState s).1).1.language
      = (goBackToPreviousState s).1.language := render_language _ h
    _ = s.language := goBack_language s h2

theorem processUSSDFlow_session (env : Env) (s : Session) (text : String)
    (s' : Session) (resp : String)
    (h : processUSSDFlow env s text = (some s', resp)) :
    stepSession (processInner env s text).2 = some s' := by
  unfold processUSSDFlow at h
  split at h <;> rename_i heq
  · simp only [Prod.mk.injEq, Option.some.injEq] at h
    rw [heq]
    simp [stepSession, h.1]
  · simp at h
  · split at h
    · simp at h
    · simp only [Prod.mk.injEq, Option.some.injEq] at h
      rw [heq]
      simp [stepSession, h.1]

theorem handleWelcome_sessions (env : Env) (c : Nat) (s : Session) (input : String)
    (s' : Session) (h : stepSession (handleWelcomeState env c s input).2 = some s') :
    s' = s ∨
    s' = pushToNavigationStack { s with language := Lang.kinyarwanda } UState.age ∨
    s' = pushToNavigationStack { s with language := Lang.english } UState.age := by
  unfold handleWelcomeState at h
  by_cases h0 : input = "0" <;> simp only [h0, if_pos, if_neg, if_true, if_false] at h
  · cases hd : dbCall env c <;> rw [hd] at h <;> simp [stepSession] at h <;>
      exact Or.inl h.symm
  · by_cases h1 : input = "1" <;> simp only [h1, if_true, if_false] at h
    · cases hd : dbCall env c <;> rw [hd] at h <;> simp [stepSession] at h <;>
        exact Or.inr (Or.inl h.symm)
    · by_cases h2 : input = "2" <;> simp only [h2, if_true, if_false] at h
      · cases hd : dbCall env c <;> rw [hd] at h <;> simp [stepSession] at h <;>
          exact Or.inr (Or.inr h.symm)
      · cases hd : dbCall env c <;> rw [hd] at h <;> simp [stepSession] at h
        exact Or.inl h.symm

theorem handleAge_sessions (env : Env) (c : Nat) (s : Session) (input : String)
    (s' : Session) (h : stepSession (handleAgeState env c s input).2 = some s') :
    s' = s ∨ s' = (goBackToPreviousState s).1 ∨
    s' = (getStateResponse (goBackToPreviousState s).1).1 ∨
    ∃ a, s' = pushToNavigationStack { s with age := some a } UState.weight := by
  unfold handleAgeState at h
  by_cases h0 : input = "0" <;> simp only [h0, if_true, if_false] at h
  · cases hd : dbCall env c <;> rw [hd] at h <;> simp [stepSession] at h
    · exact Or.inr (Or.inl h.symm)
    · exact Or.inr (Or.inr (Or.inl h.symm))
  · cases hp : jsParseInt input <;> simp only [hp] at h
    · cases hd : dbCall env c <;> rw [hd] at h <;> simp [stepSession] at h
      exact Or.inl h.symm
    · rename_i a
      by_cases hv : 0 < a ∧ a ≤ 120
      · rw [if_pos hv] at h
        cases hd : dbCall env c <;> rw [hd] at h <;> simp [stepSession] at h <;>
          exact Or.inr (Or.inr (Or.inr ⟨a, h.symm⟩))
      · rw [if_neg hv] at h
        cases hd : dbCall env c <;> rw [hd] at h <;> simp [stepSession] at h
        exact Or.inl h.symm

theorem handleWeight_sessions (env : Env) (c : Nat) (s : Session) (input : String)
    (s' : Session) (h : stepSession (handleWeightState env c s input).2 = some s') :
    s' = s ∨ s' = (goBackToPreviousState s).1 ∨
    s' = (getStateResponse (goBackToPreviousState s).1).1 ∨
    ∃ w, s' = pushToNavigationStack { s with weight := some w } UState.height := by
  unfold handleWeightState at h
  by_cases h0 : input = "0" <;> simp only [h0, if_true, if_false] at h
  · cases hd : dbCall env c <;> rw [hd] at h <;> simp [stepSession] at h
    · exact Or.inr (Or.inl h.symm)
    · exact Or.inr (Or.inr (Or.inl h.symm))
  · cases hp : jsParseFloat input <;> simp only [hp] at h
    · cases hd : dbCall env c <;> rw [hd] at h <;> simp [stepSession] at h
      exact Or.inl h.symm
    · rename_i w
      by_cases hv : 0 < w ∧ w ≤ 1000
      · rw [if_pos hv] at h
        cases hd : dbCall env c <;> rw [hd] at h <;> simp [stepSession] at h <;>
          exact Or.inr (Or.inr (Or.inr ⟨w, h.symm⟩))
      · rw [if_neg hv] at h
        cases hd : dbCall env c <;> rw [hd] at h <;> simp [stepSession] at h
        exact Or.inl h.symm

theorem handleHeight_sessions (env : Env) (c : Nat) (s : Session) (input : String)
    (s' : Session) (h : stepSession (handleHeightState env c s input).2 = some s') :
    s' = s ∨ s' = (goBackToPreviousState s).1 ∨
    s' = (getStateResponse (goBackToPreviousState s).1).1 ∨
    ∃ hq, s' = heightComputed s hq ∨
      s' = pushToNavigationStack (heightComputed s hq) UState.result := by
  unfold handleHeightState at h
  by_cases h0 : input = "0" <;> simp only [h0, if_true, if_false] at h
  · cases hd : dbCall env c <;> rw [hd] at h <;> simp [stepSession] at h
    · exact Or.inr (Or.inl h.symm)
    · exact Or.inr (Or.inr (Or.inl h.symm))
  · cases hp : jsParseFloat input <;> simp only [hp] at h
    · cases hd : dbCall env c <;> rw [hd] at h <;> simp [stepSession] at h
      exact Or.inl h.symm
    · rename_i hq
      by_cases hv : 0 < hq ∧ hq ≤ 300
      · rw [if_pos hv] at h
        cases hd : dbCall env c <;> simp only [hd] at h
        · simp [stepSession] at h
          exact Or.inr (Or.inr (Or.inr ⟨hq, Or.inl h.symm⟩))
        · rename_i c1
          cases hd1 : dbCall env c1 <;> simp only [hd1] at h <;> simp [stepSession] at h <;>
            exact Or.inr (Or.inr (Or.inr ⟨hq, Or.inr h.symm⟩))
      · rw [if_neg hv] at h
        cases hd : dbCall env c <;> rw [hd] at h <;> simp [stepSession] at h
        exact Or.inl h.symm

theorem handleResult_sessions (env : Env) (c : Nat) (s : Session) (input : String)
    (s' : Session) (h : stepSession (handleResultState env c s input).2 = some s') :
    s' = s ∨
    s' = pushToNavigationStack
      { s with age := none, weight := none, height := none, bmi := none, category := none }
      UState.age ∨
    s' = pushToNavigationStack s UState.tips ∨
    s' = pushToNavigationStack s UState.history := by
  unfold handleResultState at h
  by_cases h0 : input = "0" <;> simp only [h0, if_true, if_false] at h
  · cases hd : dbCall env c <;> rw [hd] at h <;> simp [stepSession] at h <;>
      exact Or.inr (Or.inl h.symm)
  · by_cases h1 : input = "1" <;> simp only [h1, if_true, if_false] at h
    · cases hd : dbCall env c <;> rw [hd] at h <;> simp [stepSession] at h <;>
        exact Or.inr (Or.inr (Or.inl h.symm))
    · by_cases h2 : input = "2" <;> simp only [h2, if_true, if_false] at h
      · cases hd : dbCall env c <;> rw [hd] at h <;> simp [stepSession] at h <;>
          exact Or.inr (Or.inr (Or.inr h.symm))
      · cases hd : dbCall env c <;> rw [hd] at h <;> simp [stepSession] at h
        exact Or.inl h.symm

theorem handleTips_sessions (env : Env) (c : Nat) (s : Session) (input : String)
    (s' : Session) (h : stepSession (handleTipsState env c s input).2 = some s') :
    s' = s ∨ s' = (goBackToPreviousState s).1 ∨
    s' = (getStateResponse (goBackToPreviousState s).1).1 := by
  unfold handleTipsState at h
  by_cases h0 : input = "0" <;> simp only [h0, if_true, if_false] at h
  · cases hd : dbCall env c <;> rw [hd] at h <;> simp [stepSession] at h
    · exact Or.inr (Or.inl h.symm)
    · exact Or.inr (Or.inr h.symm)
  · cases hd : dbCall env c <;> rw [hd] at h <;> simp [stepSession] at h
    exact Or.inl h.symm

theorem handleHistory_sessions (env : Env) (c : Nat) (s : Session) (input : String)
    (s' : Session) (h : stepSession (handleHistoryState env c s input).2 = some s') :
    s' = s ∨ s' = (goBackToPreviousState s).1 ∨
    s' = (getStateResponse (goBackToPreviousState s).1).1 := by
  unfold handleHistoryState at h
  by_cases h0 : input = "0" <;> simp only [h0, if_true, if_false] at h
  · cases hd : dbCall env c <;> rw [hd] at h <;> simp [stepSession] at h
    · exact Or.inr (Or.inl h.symm)
    · exact Or.inr (Or.inr h.symm)
  · cases hd : dbCall env c <;> rw [hd] at h <;> simp [stepSession] at h
    exact Or.inl h.symm

theorem processInner_language (env : Env) (s : Session) (text : String) (s' : Session)
    (hst : s.state ≠ UState.welcome)
    (h : stepSession (processInner env s text).2 = some s')
    (hw : s'.state ≠ UState.welcome) : s'.language = s.language := by
  unfold processInner at h
  by_cases ht : text = "" <;> simp only [ht, if_true, if_false] at h
  · cases hd : dbCall env 1 <;> simp only [hd] at h <;> simp [stepSession] at h <;>
      rw [← h] at hw <;> exact absurd rfl hw
  · by_cases h00 : lastToken text = "00" <;> simp only [h00, if_true, if_false] at h
    · cases hd : dbCall env 1 <;> simp only [hd] at h <;> simp [stepSession] at h
      rw [← h]
    · cases hs : s.state <;> simp only [hs] at h
      · exact absurd hs hst
      · rcases handleAge_sessions _ _ _ _ _ h with h1 | h1 | h1 | ⟨a, h1⟩
        · rw [h1]
        · subst h1
          exact goBack_language s hw
        · subst h1
          exact back_render_language s hw
        · subst h1
          rw [push_language]
      · rcases handleWeight_sessions _ _ _ _ _ h with h1 | h1 | h1 | ⟨w, h1⟩
        · rw [h1]
        · subst h1
          exact goBack_language s hw
        · subst h1
          exact back_render_language s hw
        · subst h1
          rw [push_language]
      · rcases handleHeight_sessions _ _ _ _ _ h with h1 | h1 | h1 | ⟨hq, h1 | h1⟩
        · rw [h1]
        · subst h1
          exact goBack_language s hw
        · subst h1
          exact back_render_language s hw
        · subst h1
          rfl
        · subst h1
          rw [push_language]
          rfl
      · rcases handleResult_sessions _ _ _ _ _ h with h1 | h1 | h1 | h1 <;> subst h1 <;>
          first | rfl | rw [push_language]
      · rcases handleTips_sessions _ _ _ _ _ h with h1 | h1 | h1
        · rw [h1]
        · subst h1
          exact goBack_language s hw
        · subst h1
          exact back_render_language s hw
      · rcases handleHistory_sessions _ _ _ _ _ h with h1 | h1 | h1
        · rw [h1]
        · subst h1
          exact goBack_language s hw
        · subst h1
          exact back_render_language s hw

theorem processInner_back (env : Env) (s : Session) (text : String) (hok : allOk env)
    (hst : s.state = UState.age ∨ s.state = UState.weight ∨ s.state = UState.height ∨
      s.state = UState.tips ∨ s.state = UState.history)
    (hlast : lastToken text = "0") (hne : text ≠ "") :
    processInner env s text =
      (2, HStep.cont (getStateResponse (goBackToPreviousState s).1).1
        (getStateResponse (goBackToPreviousState s).1).2) := by
  have hd : dbCall env 1 = some 2 := by simp [dbCall, hok 1]
  unfold processInner
  rw [if_neg hne]
  simp only [hlast]
  rw [if_neg (by decide : ¬ (("0" : String) = "00"))]
  rcases hst with h | h | h | h | h <;>
    simp [h, handleAgeState, handleWeightState, handleHeightState, handleTipsState,
      handleHistoryState, hd]

theorem ussd_back_step (env : Env) (s : Session) (text : String) (hok : allOk env)
    (hst : s.state = UState.age ∨ s.state = UState.weight ∨ s.state = UState.height ∨
      s.state = UState.tips ∨ s.state = UState.history)
    (hlast : lastToken text = "0") (hne : text ≠ "") :
    processUSSDFlow env s text =
      (some (getStateResponse (goBackToPreviousState s).1).1,
        (getStateResponse (goBackToPreviousState s).1).2) := by
  unfold processUSSDFlow
  rw [processInner_back env s text hok hst hlast hne]

theorem processInner_invalid (env : Env) (s : Session) (text : String) (hok : allOk env)
    (hst : s.state = UState.age ∨ s.state = UState.weight ∨ s.state = UState.height)
    (h0 : lastToken text ≠ "0") (h00 : lastToken text ≠ "00") (hne : text ≠ "")
    (hv : numericInputValid s.state (lastToken text) = false) :
    processInner env s text = (2, HStep.stop (msgs s.language).INVALID) := by
  have hd : dbCall env 1 = some 2 := by simp [dbCall, hok 1]
  unfold processInner
  rw [if_neg hne]
  rw [if_neg h00]
  rcases hst with h | h | h <;> rw [h] <;> rw [h] at hv
  · unfold handleAgeState
    rw [if_neg h0]
    simp only [numericInputValid, validAgeInput] at hv
    cases hp : jsParseInt (lastToken text) <;> rw [hp] at hv <;> simp only [hp]
    · simp [hd]
    · rename_i a
      have hnv : ¬ (0 < a ∧ a ≤ 120) := by
        intro ⟨ha1, ha2⟩
        simp [ha1, ha2] at hv
      rw [if_neg hnv]
      simp [hd]
  · unfold handleWeightState
    rw [if_neg h0]
    simp only [numericInputValid, validWeightInput] at hv
    cases hp : jsParseFloat (lastToken text) <;> rw [hp] at hv <;> simp only [hp]
    · simp [hd]
    · rename_i w
      have hnv : ¬ (0 < w ∧ w ≤ 1000) := by
        intro ⟨ha1, ha2⟩
        simp [ha1, ha2] at hv
      rw [if_neg hnv]
      simp [hd]
  · unfold handleHeightState
    rw [if_neg h0]
    simp only [numericInputValid, validHeightInput] at hv
    cases hp : jsParseFloat (lastToken text) <;> rw [hp] at hv <;> simp only [hp]
    · simp [hd]
    · rename_i hq
      have hnv : ¬ (0 < hq ∧ hq ≤ 300) := by
        intro ⟨ha1, ha2⟩
        simp [ha1, ha2] at hv
      rw [if_neg hnv]
      simp [hd]

theorem ussd_invalid_step (env : Env) (s : Session) (text : String) (hok : allOk env)
    (hst : s.state = UState.age ∨ s.state = UState.weight ∨ s.state = UState.height)
    (h0 : lastToken text ≠ "0") (h00 : lastToken text ≠ "00") (hne : text ≠ "")
    (hv : numericInputValid s.state (lastToken text) = false) :
    processUSSDFlow env s text = (none, (msgs s.language).INVALID) := by
  unfold processUSSDFlow
  rw [processInner_invalid env s text hok hst h0 h00 hne hv]

theorem storeLookup_remove (store : Store) (sid : String) :
    storeLookup (storeRemove store sid) sid = none := by
  unfold storeRemove storeLookup
  rw [List.find?_filter]
  simp [List.find?_eq_none]

theorem cleanupStore_bounded (now : Nat) (store : Store) (sid : String) (t : Session)
    (h : storeLookup (cleanupStore now store) sid = some t) :
    now - t.lastActivity ≤ 30 * 60 * 1000 := by
  unfold storeLookup at h
  rcases hf : List.find? (fun p => p.1 = sid) (cleanupStore now store) with _ | p
  · rw [hf] at h
    exact Option.noConfusion h
  · rw [hf] at h
    have h2 : p.2 = t := Option.some.inj h
    have hmem := List.mem_of_find?_eq_some hf
    unfold cleanupStore at hmem
    have hkeep := (List.mem_filter.mp hmem).2
    rw [← h2]
    exact of_decide_eq_true hkeep

/-- C2 (counterexample): at the weight prompt the token "0" is the back
token, not an invalid input: the session survives (the step returns a
session, not a termination) and the response is the age prompt, which is a
different message from the invalid-input terminal response. -/
theorem weight_back_token_not_invalid :
    sessionAtWeight.state = UState.weight ∧
    (processUSSDFlow envAllOk sessionAtWeight "2*25*0").1.isSome = true ∧
    (processUSSDFlow envAllOk sessionAtWeight "2*25*0").2 = englishMsgs.ENTER_AGE ∧
    englishMsgs.ENTER_AGE ≠ englishMsgs.INVALID := by
  decide

/-- C2 (amended): at a numeric-entry state (AGE, WEIGHT or HEIGHT), any
token other than the back token "0" and the exit token "00" that fails the
state's number-in-range check draws the localized invalid-input terminal
response and removes the session from the map, so the session id stops
being addressable; a request whose session id is absent from the map runs
against a freshly initialized session whose state is WELCOME. -/
theorem invalid_numeric_input_terminates :
    (∀ env now store sid phone text s,
      allOk env →
      storeLookup store sid = some s →
      (s.state = UState.age ∨ s.state = UState.weight ∨ s.state = UState.height) →
      lastToken text ≠ "0" → lastToken text ≠ "00" → text ≠ "" →
      numericInputValid s.state (lastToken text) = false →
      (handleRequest env now store sid phone text).2 = (msgs s.language).INVALID ∧
      storeLookup (handleRequest env now store sid phone text).1 sid = none) ∧
    (∀ store sid phone now, storeLookup store sid = none →
      requestSession store sid phone now = initializeSession sid phone now ∧
      (requestSession store sid phone now).state = UState.welcome) := by
  constructor
  · intro env now store sid phone text s hok hlook hst h0 h00 hne hv
    have hs0 : requestSession store sid phone now = s := by
      unfold requestSession
      rw [hlook]
    have hstep :
        processUSSDFlow env { s with lastActivity := now } text =
          (none, (msgs ({ s with lastActivity := now } : Session).language).INVALID) :=
      ussd_invalid_step env { s with lastActivity := now } text hok hst h0 h00 hne hv
    refine ⟨?_, ?_⟩ <;> simp only [handleRequest, hs0, hstep] <;>
      first | rfl | exact storeLookup_remove _ sid
  · intro store sid phone now h
    unfold requestSession
    rw [h]
    exact ⟨rfl, rfl⟩

/-- C2 (witness): a concrete run of the amended claim — "abc" at the weight
prompt of a stored English session terminates it and removes it from the
map, and a request against an id absent from the map starts at WELCOME. -/
theorem invalid_numeric_input_terminates_witness :
    ((handleRequest envAllOk 7 [("s-c2", sessionAtWeight)] "s-c2" "p1" "2*25*abc").2 =
        (msgs sessionAtWeight.language).INVALID ∧
      storeLookup (handleRequest envAllOk 7 [("s-c2", sessionAtWeight)] "s-c2" "p1"
        "2*25*abc").1 "s-c2" = none) ∧
    (requestSession [] "s-new" "p9" 5 = initializeSession "s-new" "p9" 5 ∧
      (requestSession [] "s-new" "p9" 5).state = UState.welcome) :=
  ⟨invalid_numeric_input_terminates.1 envAllOk 7 [("s-c2", sessionAtWeight)] "s-c2" "p1"
      "2*25*abc" sessionAtWeight (fun _ => rfl) (by decide) (Or.inr (Or.inl rfl))
      (by decide) (by decide) (by decide) (by decide),
    invalid_numeric_input_terminates.2 [] "s-new" "p9" 5 rfl⟩

/-- C3 (counterexample): entering "0" at the AGE prompt of a
Kinyarwanda-language session navigates back to WELCOME and resets the
language field to the default English (`clearDataForState` for the welcome
state overwrites `language`), so the selected language is not retained. -/
theorem back_to_welcome_resets_language :
    sessionKinAge.language = Lang.kinyarwanda ∧
    ((processUSSDFlow envAllOk sessionKinAge "1*0").1.map Session.language) =
      some Lang.english ∧
    (processUSSDFlow envAllOk sessionKinAge "1*0").2 = englishMsgs.WELCOME := by
  decide

/-- C3 (amended): the selected language is retained by every transition
between non-WELCOME states (collected fields change, the language does
not); but navigating back to WELCOME (for example "0" at the AGE prompt
with WELCOME on top of the stack) resets the language to the default
English while clearing all downstream collected fields. -/
theorem language_persists_outside_welcome :
    (∀ env (s : Session) text s' resp, s.state ≠ UState.welcome →
      processUSSDFlow env s text = (some s', resp) → s'.state ≠ UState.welcome →
      s'.language = s.language) ∧
    (∀ env (s : Session) text, allOk env → s.state = UState.age →
      lastToken text = "0" → text ≠ "" →
      s.navigationStack.getLast? = some UState.welcome →
      ∃ s', processUSSDFlow env s text = (some s', englishMsgs.WELCOME) ∧
        s'.language = Lang.english ∧ s'.age = none ∧ s'.weight = none ∧
        s'.height = none ∧ s'.bmi = none ∧ s'.category = none) := by
  constructor
  · intro env s text s' resp hst heq hw
    exact processInner_language env s text s' hst
      (processUSSDFlow_session env s text s' resp heq) hw
  · intro env s text hok hage hlast hne htop
    have hstep := ussd_back_step env s text hok (Or.inl hage) hlast hne
    rcases goBack_cases s with ⟨hnone, _⟩ | ⟨p, hp, hr⟩
    · rw [htop] at hnone
      exact Option.noConfusion hnone
    · rw [htop] at hp
      injection hp with hp
      subst hp
      refine ⟨(getStateResponse (goBackToPreviousState s).1).1, ?_, ?_, ?_, ?_, ?_, ?_, ?_⟩ <;>
        first
          | (rw [hstep, hr]; rfl)
          | (rw [hr]; rfl)

/-- C3 (witness): a Kinyarwanda session picking the tips option keeps its
language; and "0" at the AGE prompt of a Kinyarwanda session concretely
lands on WELCOME with language English and all fields cleared. -/
theorem language_persists_outside_welcome_witness :
    (pushToNavigationStack sessionKinResult UState.tips).language =
      sessionKinResult.language ∧
    (∃ s', processUSSDFlow envAllOk sessionKinAge "1*0" = (some s', englishMsgs.WELCOME) ∧
      s'.language = Lang.english ∧ s'.age = none ∧ s'.weight = none ∧
      s'.height = none ∧ s'.bmi = none ∧ s'.category = none) :=
  ⟨language_persists_outside_welcome.1 envAllOk sessionKinResult "2*30*70*170*1"
      (pushToNavigationStack sessionKinResult UState.tips) kinyarwandaMsgs.tipsNormal
      (by decide) (by decide) (by decide),
    language_persists_outside_welcome.2 envAllOk sessionKinAge "1*0" (fun _ => rfl) rfl
      (by decide) (by decide) rfl⟩

theorem clearData_nav (s : Session) (p : UState) :
    (clearDataForState s p).navigationStack = s.navigationStack := by
  cases p <;> rfl

theorem clearedDownstream_reset (st : UState) (s0 : Session) :
    clearedDownstream st (resetToWelcome s0) = true := by
  cases st <;> rfl

theorem clearedDownstream_clearData (s : Session) (p : UState) (l : List UState)
    (hinv : invB s = true)
    (hst : s.state = UState.age ∨ s.state = UState.weight ∨ s.state = UState.height ∨
      s.state = UState.tips ∨ s.state = UState.history) :
    clearedDownstream s.state
      (clearDataForState { s with state := p, navigationStack := l } p) = true := by
  rcases hst with h | h | h | h | h <;>
    simp only [invB, h, allFieldsClearedB, Bool.and_eq_true] at hinv <;>
    rw [h] <;>
    cases p <;>
    simp [clearedDownstream, clearDataForState, allFieldsClearedB] <;>
    simp_all

/-- C4 (counterexample): with `result` on top of the navigation stack and
bmi/category already cleared (the state reached by "0" at the result screen
followed by "0" at the age prompt is exactly this one), a back token pops
`result` but the popped state does not become the current state: the
renderer's fall-through resets the session to WELCOME and empties the whole
stack. -/
theorem back_pop_result_resets_to_welcome :
    sessionResultOnStack.navigationStack.getLast? = some UState.result ∧
    ((processUSSDFlow envAllOk sessionResultOnStack "0").1.map Session.state) =
      some UState.welcome ∧
    ((processUSSDFlow envAllOk sessionResultOnStack "0").1.map
      Session.navigationStack) = some [] := by
  decide

/-- C4 (amended): on a back token from a data-entry, tips or history state
of an invariant-respecting session, with the database available: the
session survives (is not terminated); if the stack is empty it is reset to
WELCOME with all fields cleared; if the stack is non-empty the top state is
popped and every field downstream of the abandoned state is cleared, and
the session either moves to the popped state (stack shrunk by one) or — when
the popped state's prompt can no longer be rendered, e.g. `result` popped
with bmi cleared — is reset to WELCOME with all fields cleared and an empty
stack. -/
theorem back_navigation_pop_or_reset : ∀ env (s : Session) text,
    allOk env → invB s = true →
    (s.state = UState.age ∨ s.state = UState.weight ∨ s.state = UState.height ∨
      s.state = UState.tips ∨ s.state = UState.history) →
    lastToken text = "0" → text ≠ "" →
    ∃ s' resp, processUSSDFlow env s text = (some s', resp) ∧
      (match s.navigationStack.getLast? with
       | none => s'.state = UState.welcome ∧ s'.navigationStack = [] ∧
           allFieldsClearedB s' = true
       | some p =>
           clearedDownstream s.state s' = true ∧
           ((s'.state = p ∧ s'.navigationStack = s.navigationStack.dropLast) ∨
            (s'.state = UState.welcome ∧ s'.navigationStack = [] ∧
              allFieldsClearedB s' = true))) := by
  intro env s text hok hinv hst hlast hne
  have hstep := ussd_back_step env s text hok hst hlast hne
  refine ⟨(getStateResponse (goBackToPreviousState s).1).1,
    (getStateResponse (goBackToPreviousState s).1).2, hstep, ?_⟩
  rcases goBack_cases s with ⟨hnone, hr⟩ | ⟨p, hp, hr⟩
  · rw [hnone, hr]
    exact ⟨rfl, rfl, rfl⟩
  · rw [hp, hr]
    constructor
    · rcases render_id_or_reset
        (clearDataForState
          { s with state := p, navigationStack := s.navigationStack.dropLast } p) with
        hr2 | hr2 <;> rw [hr2]
      · exact clearedDownstream_clearData s p _ hinv hst
      · exact clearedDownstream_reset s.state _
    · rcases render_id_or_reset
        (clearDataForState
          { s with state := p, navigationStack := s.navigationStack.dropLast } p) with
        hr2 | hr2 <;> rw [hr2]
      · left
        rw [clearData_state, clearData_nav]
        exact ⟨rfl, rfl⟩
      · right
        exact ⟨rfl, rfl, rfl⟩

/-- C4 (witness): a concrete back step from weight entry pops `age`, lands
on the age prompt and leaves the collected fields downstream of weight
cleared. -/
theorem back_navigation_pop_or_reset_witness :
    ∃ s' resp, processUSSDFlow envAllOk sessionWeightBack "2*40*0" = (some s', resp) ∧
      (match sessionWeightBack.navigationStack.getLast? with
       | none => s'.state = UState.welcome ∧ s'.navigationStack = [] ∧
           allFieldsClearedB s' = true
       | some p =>
           clearedDownstream sessionWeightBack.state s' = true ∧
           ((s'.state = p ∧
              s'.navigationStack = sessionWeightBack.navigationStack.dropLast) ∨
            (s'.state = UState.welcome ∧ s'.navigationStack = [] ∧
              allFieldsClearedB s' = true))) :=
  back_navigation_pop_or_reset envAllOk sessionWeightBack "2*40*0" (fun _ => rfl)
    (by decide) (Or.inr (Or.inl rfl)) (by decide) (by decide)

/-- C5 (confirmed): whenever the last token of the request text is the exit
token "00" — whatever the session's state — and the database accepts the
status write, processing answers with the localized goodbye termination
response and the session is deleted from the map. -/
theorem exit_token_terminates : ∀ env (s : Session) text, allOk env →
    lastToken text = "00" →
    processUSSDFlow env s text = (none, (msgs s.language).GOODBYE) := by
  intro env s text hok hlast
  have hne : text ≠ "" := by
    intro he
    rw [he] at hlast
    exact absurd hlast (by decide)
  have hd : dbCall env 1 = some 2 := by simp [dbCall, hok 1]
  unfold processUSSDFlow processInner
  rw [if_neg hne]
  simp [hlast, hd]

/-- C5 (witness): "1*00" from a deep Kinyarwanda session yields the
Kinyarwanda goodbye and deletes the session. -/
theorem exit_token_terminates_witness :
    processUSSDFlow envAllOk sessionKinResult "1*00" =
      (none, (msgs sessionKinResult.language).GOODBYE) :=
  exit_token_terminates envAllOk sessionKinResult "1*00" (fun _ => rfl) (by decide)

/-- C6 (counterexample): a session idle for 31 minutes is NOT treated as
absent by the next request with its id: the handler looks the session up and
refreshes `lastActivity` before the in-request cleanup runs, so the stale
weight-entry state is resumed (the reply is the height prompt and the stored
state advances to height), not a fresh WELCOME. -/
theorem stale_session_resumed_before_sweep :
    (31 * 60 * 1000 : Nat) - staleSession.lastActivity > 30 * 60 * 1000 ∧
    (handleRequest envAllOk (31 * 60 * 1000) staleStore "s-c6" "p4" "1*25*70").2 =
      englishMsgs.ENTER_HEIGHT ∧
    ((storeLookup (handleRequest envAllOk (31 * 60 * 1000) staleStore "s-c6" "p4"
      "1*25*70").1 "s-c6").map Session.state) = some UState.height ∧
    englishMsgs.ENTER_HEIGHT ≠ englishMsgs.WELCOME := by
  decide

/-- C6 (amended): expiry is enforced by the periodic sweep, not on access:
after a cleanup pass no session retrievable from the map has been idle for
more than the thirty-minute window; a request whose session id is absent
from the map runs against a freshly initialized WELCOME session, and with
empty input it answers the welcome prompt.  (A stale session accessed
before a sweep has removed it is resumed, as the counterexample shows.) -/
theorem expiry_by_sweep_and_fresh_start :
    (∀ now (store : Store) sid (t : Session),
      storeLookup (cleanupStore now store) sid = some t →
      now - t.lastActivity ≤ 30 * 60 * 1000) ∧
    (∀ (store : Store) sid phone now, storeLookup store sid = none →
      requestSession store sid phone now = initializeSession sid phone now ∧
      (requestSession store sid phone now).state = UState.welcome) ∧
    (∀ env now (store : Store) sid phone, allOk env → storeLookup store sid = none →
      (handleRequest env now store sid phone "").2 = englishMsgs.WELCOME) := by
  refine ⟨fun now store sid t h => cleanupStore_bounded now store sid t h, ?_, ?_⟩
  · intro store sid phone now h
    unfold requestSession
    rw [h]
    exact ⟨rfl, rfl⟩
  · intro env now store sid phone hok h
    have hs0 : requestSession store sid phone now = initializeSession sid phone now := by
      unfold requestSession
      rw [h]
    have hd : dbCall env 1 = some 2 := by simp [dbCall, hok 1]
    simp only [handleRequest, hs0]
    simp [processUSSDFlow, processInner, hd]

/-- C6 (witness): concrete instances — a fresh session survives the sweep
within the window, an absent id yields a fresh WELCOME session, and an
empty-text request on an absent id answers the welcome prompt. -/
theorem expiry_by_sweep_and_fresh_start_witness :
    ((5 : Nat) - (initializeSession "s-c6w" "p4" 0).lastActivity ≤ 30 * 60 * 1000) ∧
    (requestSession [] "s-c6x" "p4" 9 = initializeSession "s-c6x" "p4" 9 ∧
      (requestSession [] "s-c6x" "p4" 9).state = UState.welcome) ∧
    (handleRequest envAllOk 3 [] "s-c6y" "p4" "").2 = englishMsgs.WELCOME :=
  ⟨expiry_by_sweep_and_fresh_start.1 5 [("s-c6w", initializeSession "s-c6w" "p4" 0)]
      "s-c6w" (initializeSession "s-c6w" "p4" 0) (by decide),
    expiry_by_sweep_and_fresh_start.2.1 [] "s-c6x" "p4" 9 rfl,
    expiry_by_sweep_and_fresh_start.2.2 envAllOk 3 [] "s-c6y" "p4" (fun _ => rfl) rfl⟩

/-- C7 (counterexample): rendering is not free of mutation: for a session
at the result screen whose bmi/category were cleared (reachable via "0" at
the result screen and then "0" at the age prompt), `getStateResponse`
resets the session to WELCOME — the session value after rendering differs
from the value before, its state moves to WELCOME and its stack is
emptied. -/
theorem render_result_without_bmi_mutates :
    (getStateResponse sessionResultNull).1 ≠ sessionResultNull ∧
    sessionResultNull.state = UState.result ∧
    (getStateResponse sessionResultNull).1.state = UState.welcome ∧
    (getStateResponse sessionResultNull).1.navigationStack = [] := by
  decide

/-- C7 (amended): the rendered text is a function of the session's state,
language and collected fields only; for sessions whose state's prompt is
renderable (WELCOME, AGE, WEIGHT, HEIGHT always; RESULT with bmi and
category present; TIPS with category present) rendering returns the session
unchanged and re-rendering is byte-identical; for the remaining sessions
(HISTORY, or RESULT/TIPS with missing data) rendering resets the session to
WELCOME and answers the welcome prompt. -/
theorem render_pure_on_renderable :
    (∀ s t : Session, s.state = t.state → s.language = t.language → s.age = t.age →
      s.weight = t.weight → s.height = t.height → s.bmi = t.bmi →
      s.category = t.category →
      (getStateResponse s).2 = (getStateResponse t).2) ∧
    (∀ s : Session, renderableB s = true → (getStateResponse s).1 = s ∧
      (getStateResponse ((getStateResponse s).1)).2 = (getStateResponse s).2) ∧
    (∀ s : Session, renderableB s = false →
      (getStateResponse s).1 = resetToWelcome s ∧
      (getStateResponse s).2 = englishMsgs.WELCOME) := by
  refine ⟨?_, ?_, ?_⟩
  · intro s t h1 h2 h3 h4 h5 h6 h7
    obtain ⟨sid, ph, st, lang, age, w, h, b, cat, stack, la⟩ := s
    obtain ⟨sid2, ph2, st2, lang2, age2, w2, h2b, b2, cat2, stack2, la2⟩ := t
    simp only [] at h1 h2 h3 h4 h5 h6 h7
    subst h1 h2 h3 h4 h5 h6 h7
    cases st <;>
      first
        | rfl
        | (cases b <;> cases cat <;> rfl)
        | (cases cat <;> rfl)
  · intro s hr
    obtain ⟨sid, ph, st, lang, age, w, h, b, cat, stack, la⟩ := s
    cases st with
    | welcome => exact ⟨rfl, rfl⟩
    | age => exact ⟨rfl, rfl⟩
    | weight => exact ⟨rfl, rfl⟩
    | height => exact ⟨rfl, rfl⟩
    | result =>
      cases b with
      | none => simp [renderableB] at hr
      | some bv =>
        cases cat with
        | none => simp [renderableB] at hr
        | some cv => exact ⟨rfl, rfl⟩
    | tips =>
      cases cat with
      | none => simp [renderableB] at hr
      | some cv => exact ⟨rfl, rfl⟩
    | history => simp [renderableB] at hr
  · intro s hr
    obtain ⟨sid, ph, st, lang, age, w, h, b, cat, stack, la⟩ := s
    cases st with
    | welcome => simp [renderableB] at hr
    | age => simp [renderableB] at hr
    | weight => simp [renderableB] at hr
    | height => simp [renderableB] at hr
    | result =>
      cases b with
      | none =>
        cases cat with
        | none => exact ⟨rfl, rfl⟩
        | some cv => exact ⟨rfl, rfl⟩
      | some bv =>
        cases cat with
        | none => exact ⟨rfl, rfl⟩
        | some cv => simp [renderableB] at hr
    | tips =>
      cases cat with
      | none => exact ⟨rfl, rfl⟩
      | some cv => simp [renderableB] at hr
    | history => exact ⟨rfl, rfl⟩

/-- C7 (witness): the rendered result-screen text ignores session id and
stack; rendering a completed result session leaves it untouched and
re-renders identically; rendering the cleared result session resets it. -/
theorem render_pure_on_renderable_witness :
    ((getStateResponse sessionResultFull).2 =
      (getStateResponse
        { sessionResultFull with sessionId := "zz", navigationStack := [] }).2) ∧
    ((getStateResponse sessionResultFull).1 = sessionResultFull ∧
      (getStateResponse ((getStateResponse sessionResultFull).1)).2 =
        (getStateResponse sessionResultFull).2) ∧
    ((getStateResponse sessionResultNull).1 = resetToWelcome sessionResultNull ∧
      (getStateResponse sessionResultNull).2 = englishMsgs.WELCOME) :=
  ⟨render_pure_on_renderable.1 sessionResultFull
      { sessionResultFull with sessionId := "zz", navigationStack := [] }
      rfl rfl rfl rfl rfl rfl rfl,
    render_pure_on_renderable.2.1 sessionResultFull (by decide),
    render_pure_on_renderable.2.2 sessionResultNull (by decide)⟩

/-- C8 (counterexample): when the database rejects every call, a request
from a Kinyarwanda session raises inside processing and the catch block's
own terminate-status write also rejects: the handler still answers (with
the generic error prompt), but the prompt is the English one — not the
session's locale — and the session is NOT removed from the map. -/
theorem double_db_failure_keeps_session :
    (processUSSDFlow envAllFail sessionKinAgeDb "2*25").2 = englishMsgs.ERROR ∧
    (processUSSDFlow envAllFail sessionKinAgeDb "2*25").1.isSome = true ∧
    sessionKinAgeDb.language = Lang.kinyarwanda ∧
    englishMsgs.ERROR ≠ kinyarwandaMsgs.ERROR := by
  decide

/-- C8 (amended): every raise inside processing is caught — the handler
always returns a response, namely the generic error prompt in the default
English regardless of the session's language; the session is deleted when
the catch block's terminate-status write succeeds, and is left in the map
(with its partial mutations) when that write also rejects.  Moreover, with
a fully available database no raise occurs at all: exceptions originate
only in the awaited database calls. -/
theorem caught_error_response :
    (∀ env (s : Session) text c' s1,
      processInner env s text = (c', HStep.raise s1) →
      processUSSDFlow env s text =
        (if env.dbOk c' = true then (none, englishMsgs.ERROR)
         else (some s1, englishMsgs.ERROR))) ∧
    (∀ env (s : Session) text, allOk env →
      ∀ c' s1, processInner env s text ≠ (c', HStep.raise s1)) := by
  constructor
  · intro env s text c' s1 h
    unfold processUSSDFlow
    rw [h]
    by_cases hd : env.dbOk c' = true
    · rw [if_pos hd]
      simp [dbCall, hd]
    · rw [if_neg hd]
      simp [dbCall, hd]
  · intro env s text hok c' s1 h
    have hd : ∀ k, dbCall env k = some (k + 1) := fun k => by simp [dbCall, hok k]
    unfold processInner handleWelcomeState handleAgeState handleWeightState
      handleHeightState handleResultState handleTipsState handleHistoryState at h
    simp only [hd] at h
    repeat' split at h
    all_goals simp at h

/-- C8 (witness): a concrete raising run — the failing-age-save request of
the counterexample session raises with the partially mutated session, and
is caught into the keep-the-session English error answer; and under a fully
available database the same request raises nowhere. -/
theorem caught_error_response_witness :
    (processUSSDFlow envAllFail sessionKinAgeDb "2*25" =
      (if envAllFail.dbOk 1 = true then (none, englishMsgs.ERROR)
       else (some (pushToNavigationStack { sessionKinAgeDb with age := some 25 }
         UState.weight), englishMsgs.ERROR))) ∧
    processInner envAllOk sessionKinAgeDb "2*25" ≠
      (1, HStep.raise (pushToNavigationStack { sessionKinAgeDb with age := some 25 }
        UState.weight)) :=
  ⟨caught_error_response.1 envAllFail sessionKinAgeDb "2*25" 1
      (pushToNavigationStack { sessionKinAgeDb with age := some 25 } UState.weight)
      (by decide),
    caught_error_response.2 envAllOk sessionKinAgeDb "2*25" (fun _ => rfl) 1
      (pushToNavigationStack { sessionKinAgeDb with age := some 25 } UState.weight)⟩

/-- C9 (confirmed): whenever `pushToNavigationStack` is called to leave a
state for a different one — which is how every forward transition in the
handlers invokes it — the new top of the stack is exactly the state that
was just left, and it never equals the new current state. -/
theorem push_top_is_previous_state : ∀ (s : Session) (st : UState), s.state ≠ st →
    (pushToNavigationStack s st).navigationStack.getLast? = some s.state ∧
    (pushToNavigationStack s st).state = st ∧
    (pushToNavigationStack s st).navigationStack.getLast? ≠
      some (pushToNavigationStack s st).state := by
  intro s st h
  unfold pushToNavigationStack
  rw [if_pos h]
  refine ⟨?_, rfl, ?_⟩
  · simp
  · simp
    exact h

/-- C9 (witness): the first forward transition pushes `welcome` and moves
to `age`; the top of the stack is the left state, not the current one. -/
theorem push_top_is_previous_state_witness :
    (pushToNavigationStack (initializeSession "s-c9" "p7" 0)
        UState.age).navigationStack.getLast? =
      some (initializeSession "s-c9" "p7" 0).state ∧
    (pushToNavigationStack (initializeSession "s-c9" "p7" 0) UState.age).state =
      UState.age ∧
    (pushToNavigationStack (initializeSession "s-c9" "p7" 0)
        UState.age).navigationStack.getLast? ≠
      some (pushToNavigationStack (initializeSession "s-c9" "p7" 0) UState.age).state :=
  push_top_is_previous_state (initializeSession "s-c9" "p7" 0) UState.age (by decide)

theorem code_category_eq_spec (b : ℚ) :
    (if b < 18.5 then Category.underweight
     else if 18.5 ≤ b ∧ b < 25 then Category.normal
     else if 25 ≤ b ∧ b < 30 then Category.overweight
     else Category.obese) = specCategory b := by
  unfold specCategory
  by_cases hb1 : b < 18.5
  · rw [if_pos hb1, if_pos hb1]
  · rw [if_neg hb1, if_neg hb1]
    by_cases hb2 : b < 25
    · rw [if_pos ⟨le_of_not_lt hb1, hb2⟩, if_pos hb2]
    · rw [if_neg (fun hc => hb2 hc.2), if_neg hb2]
      by_cases hb3 : b < 30
      · rw [if_pos ⟨le_of_not_lt hb2, hb3⟩, if_pos hb3]
      · rw [if_neg (fun hc => hb3 hc.2), if_neg hb3]

/-- C1 (confirmed): for positive weight and height the computed BMI is the
quotient `w / (h/100)^2` rounded to one decimal, and the category is the
specification table's pure function of that rounded value — in particular a
rounded BMI of exactly 18.5 classifies as normal and exactly 25.0 as
overweight. -/
theorem bmi_formula_and_category : ∀ w h : ℚ, 0 < w → 0 < h →
    (calculateBMI w h).1 = roundTenths (w / (h / 100) ^ 2) ∧
    (calculateBMI w h).2 = specCategory (calculateBMI w h).1 ∧
    ((calculateBMI w h).1 = 18.5 → (calculateBMI w h).2 = Category.normal) ∧
    ((calculateBMI w h).1 = 25 → (calculateBMI w h).2 = Category.overweight) := by
  intro w h hw hh
  have h1 : (calculateBMI w h).1 = roundTenths (w / (h / 100) ^ 2) := by
    unfold calculateBMI
    rw [pow_two]
  have h2 : (calculateBMI w h).2 = specCategory (calculateBMI w h).1 :=
    code_category_eq_spec ((calculateBMI w h).1)
  refine ⟨h1, h2, ?_, ?_⟩
  · intro he
    rw [h2, he]
    norm_num [specCategory]
  · intro he
    rw [h2, he]
    norm_num [specCategory]

/-- C1 (witness): weight 70 kg and height 170 cm instantiate the theorem
(the computed BMI is 24.2, category normal, matching the specification's
round-trip example). -/
theorem bmi_formula_and_category_witness :
    (0 : ℚ) < 70 ∧ (0 : ℚ) < 170 ∧
    ((calculateBMI 70 170).1 = roundTenths (70 / ((170 : ℚ) / 100) ^ 2) ∧
      (calculateBMI 70 170).2 = specCategory (calculateBMI 70 170).1 ∧
      ((calculateBMI 70 170).1 = 18.5 → (calculateBMI 70 170).2 = Category.normal) ∧
      ((calculateBMI 70 170).1 = 25 → (calculateBMI 70 170).2 = Category.overweight)) :=
  ⟨by norm_num, by norm_num, bmi_formula_and_category 70 170 (by norm_num) (by norm_num)⟩

theorem invB_initializeSession (sid phone : String) (now : Nat) :
    invB (initializeSession sid phone now) = true := rfl

theorem invB_congr (a b : Session) (h1 : a.state = b.state) (h2 : a.age = b.age)
    (h3 : a.weight = b.weight) (h4 : a.height = b.height) (h5 : a.bmi = b.bmi)
    (h6 : a.category = b.category) : invB a = invB b := by
  obtain ⟨sid, ph, st, lang, age, w, h, b', cat, stack, la⟩ := a
  obtain ⟨sid2, ph2, st2, lang2, age2, w2, h2b, b2, cat2, stack2, la2⟩ := b
  simp only [] at h1 h2 h3 h4 h5 h6
  subst h1 h2 h3 h4 h5 h6
  cases st <;> rfl

theorem invB_goBack (s : Session) : invB (goBackToPreviousState s).1 = true := by
  rcases goBack_cases s with ⟨_, hr⟩ | ⟨p, _, hr⟩ <;> rw [hr]
  · rfl
  · cases p <;> rfl

theorem invB_render (s : Session) (h : invB s = true) :
    invB (getStateResponse s).1 = true := by
  rcases render_id_or_reset s with hr | hr <;> rw [hr]
  · exact h
  · rfl

theorem invB_back_render (s : Session) :
    invB (getStateResponse (goBackToPreviousState s).1).1 = true :=
  invB_render _ (invB_goBack s)

theorem invB_push (s0 : Session) (st : UState)
    (h : invB { s0 with state := st } = true) :
    invB (pushToNavigationStack s0 st) = true := by
  unfold pushToNavigationStack
  split
  · exact (invB_congr _ { s0 with state := st } rfl rfl rfl rfl rfl rfl).trans h
  · exact h

theorem invB_preserved : ∀ env (s : Session) text s' resp, allOk env → invB s = true →
    processUSSDFlow env s text = (some s', resp) → invB s' = true := by
  intro env s text s' resp hok hinv heq
  have hd : ∀ k, dbCall env k = some (k + 1) := fun k => by simp [dbCall, hok k]
  have h := processUSSDFlow_session env s text s' resp heq
  unfold processInner at h
  by_cases ht : text = "" <;> simp only [ht, if_true, if_false, hd] at h
  · simp [stepSession] at h
    rw [← h]
    rfl
  · by_cases h00 : lastToken text = "00" <;> simp only [h00, if_true, if_false, hd] at h
    · simp [stepSession] at h
    · cases hs : s.state <;> simp only [hs] at h
      · unfold handleWelcomeState at h
        by_cases h0 : lastToken text = "0" <;> simp only [h0, if_true, if_false, hd] at h
        · simp [stepSession] at h
          rw [← h]
          exact hinv
        · by_cases h1 : lastToken text = "1" <;> simp only [h1, if_true, if_false, hd] at h
          · simp [stepSession] at h
            rw [← h]
            apply invB_push
            simp only [invB, hs, allFieldsClearedB, Bool.and_eq_true] at hinv
            simp [invB, allFieldsClearedB, hinv]
          · by_cases h2 : lastToken text = "2" <;>
              simp only [h2, if_true, if_false, hd] at h
            · simp [stepSession] at h
              rw [← h]
              apply invB_push
              simp only [invB, hs, allFieldsClearedB, Bool.and_eq_true] at hinv
              simp [invB, allFieldsClearedB, hinv]
            · simp [stepSession] at h
      · unfold handleAgeState at h
        by_cases h0 : lastToken text = "0" <;> simp only [h0, if_true, if_false, hd] at h
        · simp [stepSession] at h
          rw [← h]
          exact invB_back_render s
        · cases hp : jsParseInt (lastToken text) <;> simp only [hp, hd] at h
          · simp [stepSession] at h
          · rename_i a
            by_cases hv : 0 < a ∧ a ≤ 120
            · rw [if_pos hv] at h
              simp only [hd] at h
              simp [stepSession] at h
              rw [← h]
              apply invB_push
              simp only [invB, hs, allFieldsClearedB, Bool.and_eq_true] at hinv
              simp [invB, allFieldsClearedB, hinv]
            · rw [if_neg hv] at h
              simp only [hd] at h
              simp [stepSession] at h
      · unfold handleWeightState at h
        by_cases h0 : lastToken text = "0" <;> simp only [h0, if_true, if_false, hd] at h
        · simp [stepSession] at h
          rw [← h]
          exact invB_back_render s
        · cases hp : jsParseFloat (lastToken text) <;> simp only [hp, hd] at h
          · simp [stepSession] at h
          · rename_i w
            by_cases hv : 0 < w ∧ w ≤ 1000
            · rw [if_pos hv] at h
              simp only [hd] at h
              simp [stepSession] at h
              rw [← h]
              apply invB_push
              simp only [invB, hs, allFieldsClearedB, Bool.and_eq_true] at hinv
              simp [invB, allFieldsClearedB, hinv]
            · rw [if_neg hv] at h
              simp only [hd] at h
              simp [stepSession] at h
      · unfold handleHeightState at h
        by_cases h0 : lastToken text = "0" <;> simp only [h0, if_true, if_false, hd] at h
        · simp [stepSession] at h
          rw [← h]
          exact invB_back_render s
        · cases hp : jsParseFloat (lastToken text) <;> simp only [hp, hd] at h
          · simp [stepSession] at h
          · rename_i hq
            by_cases hv : 0 < hq ∧ hq ≤ 300
            · rw [if_pos hv] at h
              simp only [hd] at h
              simp [stepSession] at h
              rw [← h]
              apply invB_push
              rfl
            · rw [if_neg hv] at h
              simp only [hd] at h
              simp [stepSession] at h
      · unfold handleResultState at h
        by_cases h0 : lastToken text = "0" <;> simp only [h0, if_true, if_false, hd] at h
        · simp [stepSession] at h
          rw [← h]
          apply invB_push
          rfl
        · by_cases h1 : lastToken text = "1" <;> simp only [h1, if_true, if_false, hd] at h
          · simp [stepSession] at h
            rw [← h]
            apply invB_push
            rfl
          · by_cases h2 : lastToken text = "2" <;>
              simp only [h2, if_true, if_false, hd] at h
            · simp [stepSession] at h
              rw [← h]
              apply invB_push
              rfl
            · simp [stepSession] at h
      · unfold handleTipsState at h
        by_cases h0 : lastToken text = "0" <;> simp only [h0, if_true, if_false, hd] at h
        · simp [stepSession] at h
          rw [← h]
          exact invB_back_render s
        · simp [stepSession] at h
      · unfold handleHistoryState at h
        by_cases h0 : lastToken text = "0" <;> simp only [h0, if_true, if_false, hd] at h
        · simp [stepSession] at h
          rw [← h]
          exact invB_back_render s
        · simp [stepSession] at h
